import Mathlib

/-!
Verification development for the me-notes repository.

The embedded code:
* `src/backend/server.js` — the `POST /transcribe` Express handler
  (normalize with ffmpeg, run whisper-cli, clean up temporary files);
* `src/frontend/src/App.jsx` — the client-side chunk pipeline:
  `processChunk` (retry loop with exponential backoff and session-state
  recording) and `processQueue` / `recorder.ondataavailable` (the
  sequential job queue built on `processingQueueRef` and
  `isProcessingRef`).

Wall-clock timestamps attached to transcript fragments and error records
(`new Date().toLocaleTimeString()`) are outside the embedding; every other
field of the session state is carried.  Asynchronous subprocess completion
is modelled by an environment record that fixes the outcome of each stage
of one handler invocation; the handler itself is a pure function of that
environment and of the set of files present in the scratch directory.
-/

namespace MeNotes

/-! ## Backend: `POST /transcribe` (src/backend/server.js) -/

/-- Outcome of the ffmpeg conversion `execFile` for one invocation:
the callback fires with no error, the callback fires with an error
carrying message `msg`, or the 5-minute `setTimeout` fires first. -/
inductive FfmpegResult
  | ok
  | fail (msg : String)
  | timeout
deriving DecidableEq, Repr

/-- Outcome of the whisper-cli `execFile`: success with captured stdout,
an error with message `msg`, or the 9-minute `setTimeout` fires first. -/
inductive WhisperResult
  | ok (stdout : String)
  | fail (msg : String)
  | timeout
deriving DecidableEq, Repr

/-- The environment of one `/transcribe` invocation: whether multer
received an `audio` part (and where it stored it), the outcome of each
subprocess stage, whether a partial `.wav` had been written by the time a
failing conversion settled, whether the model file and the whisper binary
exist, and the raw `language` query parameter (`none` = absent). -/
structure TranscribeEnv where
  hasFile : Bool
  inputPath : String
  ffmpeg : FfmpegResult
  ffmpegCreatedWav : Bool
  modelExists : Bool
  binExists : Bool
  langParam : Option String
  whisper : WhisperResult
deriving DecidableEq, Repr

/-- The HTTP response the handler settles with:
`res.json {transcript, language}` (status 200), `res.status 400 .json
{error}`, or `res.status 500 .json {error}`. -/
inductive Response
  | ok (transcript language : String)
  | badRequest (error : String)
  | serverError (error : String)
deriving DecidableEq, Repr

/-- Observable result of one handler invocation: the response, the files
present in the scratch directory afterwards, every kill signal the
handler sent to a subprocess (the handler never sends one — `execFile`'s
child is never referenced again, so this trace stays empty), and the
argument list passed to whisper-cli if it was invoked. -/
structure HandlerResult where
  response : Response
  fs : List String
  kills : List String
  whisperArgs : Option (List String)
deriving DecidableEq, Repr

/-- `path.join(__dirname, "whisper.cpp", "models", "ggml-base.bin")`,
with `__dirname` abstracted away. -/
def modelPath : String := "whisper.cpp/models/ggml-base.bin"

/-- JavaScript `s.trim()`: the string with leading and trailing
whitespace removed. -/
def jsTrim (s : String) : String :=
  ⟨((s.toList.dropWhile Char.isWhitespace).reverse.dropWhile Char.isWhitespace).reverse⟩

/-- `cleanupFiles(...files)`: unlink each of the given paths that exists;
on the file-list model this removes every occurrence of those paths. -/
def cleanupFiles (targets : List String) (fs : List String) : List String :=
  fs.filter (fun f => !(decide (f ∈ targets)))

/-- JavaScript `s.includes(pat)` on strings. -/
def strContains (s pat : String) : Bool :=
  decide (List.IsInfix pat.toList s.toList)

/-- The `catch` block's error-message classification:
`timeout` substring, then `ENOENT` substring, then the message itself if
non-empty, else `"Internal error"`. -/
def classifyError (msg : String) : String :=
  if strContains msg "timeout" then
    "Processing timeout - file may be too large or processing took too long"
  else if strContains msg "ENOENT" then
    "Required tool (ffmpeg or whisper-cli) not found"
  else if msg ≠ "" then msg
  else "Internal error"

/-- `req.query.language || "auto"`: an absent parameter and the empty
string (the only falsy string) both yield `"auto"`; any other string is
used as-is. -/
def effectiveLanguage : Option String → String
  | none => "auto"
  | some s => if s = "" then "auto" else s

/-- The `POST /transcribe` handler as a function of its environment and
of the initial scratch-directory contents, following src/backend/server.js
lines 38–156 branch by branch. -/
def transcribe (env : TranscribeEnv) (fs₀ : List String) : HandlerResult :=
  if env.hasFile = false then
    -- `if (!inputPath || !req.file) return res.status(400)...`;
    -- multer created no file, so the scratch directory is untouched
    { response := .badRequest "No audio file provided"
      fs := fs₀, kills := [], whisperArgs := none }
  else
    -- multer stored the upload at `inputPath`
    let fs₁ := fs₀ ++ [env.inputPath]
    let wavPath := env.inputPath ++ ".wav"
    match env.whisper, env.ffmpeg with
    | _, .timeout =>
        -- the conversion deadline rejects with "FFmpeg conversion timeout";
        -- no kill is sent to ffmpeg; the catch block cleans up and classifies
        let fs₂ := if env.ffmpegCreatedWav then fs₁ ++ [wavPath] else fs₁
        { response := .serverError (classifyError "FFmpeg conversion timeout")
          fs := cleanupFiles [env.inputPath, wavPath] fs₂
          kills := [], whisperArgs := none }
    | _, .fail msg =>
        -- ffmpeg's callback rejected; the catch block cleans up and classifies
        let fs₂ := if env.ffmpegCreatedWav then fs₁ ++ [wavPath] else fs₁
        { response := .serverError (classifyError msg)
          fs := cleanupFiles [env.inputPath, wavPath] fs₂
          kills := [], whisperArgs := none }
    | wres, .ok =>
      -- conversion succeeded and wrote the normalized artifact
      let fs₂ := fs₁ ++ [wavPath]
      if env.modelExists = false then
        { response := .serverError "Model file not found. Please download ggml-base.bin"
          fs := cleanupFiles [env.inputPath, wavPath] fs₂
          kills := [], whisperArgs := none }
      else if env.binExists = false then
        { response := .serverError "Whisper binary not found. Please build whisper.cpp first"
          fs := cleanupFiles [env.inputPath, wavPath] fs₂
          kills := [], whisperArgs := none }
      else
        let language := effectiveLanguage env.langParam
        let args := ["-m", modelPath, "-f", wavPath, "-l", language, "--no-prints"]
        match wres with
        | .timeout =>
            -- the inference deadline cleans up and rejects with
            -- "Whisper processing timeout"; no kill is sent to whisper-cli;
            -- the catch block cleans up again (idempotent) and classifies
            { response := .serverError (classifyError "Whisper processing timeout")
              fs := cleanupFiles [env.inputPath, wavPath] fs₂
              kills := [], whisperArgs := some args }
        | .fail msg =>
            -- whisper's callback cleans up and rejects; catch classifies
            { response := .serverError (classifyError msg)
              fs := cleanupFiles [env.inputPath, wavPath] fs₂
              kills := [], whisperArgs := some args }
        | .ok stdout =>
            -- `const transcript = stdout.trim()` is returned as-is,
            -- with no emptiness check, after cleaning up
            { response := .ok (jsTrim stdout) language
              fs := cleanupFiles [env.inputPath, wavPath] fs₂
              kills := [], whisperArgs := some args }

/-! ## Client: session state and `processChunk` (src/frontend/src/App.jsx) -/

/-- An entry of the `transcripts` state list: `{ text, chunk, timestamp }`
(the wall-clock timestamp is outside the embedding). -/
structure Fragment where
  text : String
  chunk : Nat
deriving DecidableEq, Repr

/-- An entry of the `errors` state list: `{ chunk, error, timestamp }`
(the wall-clock timestamp is outside the embedding). -/
structure ErrRec where
  chunk : Nat
  error : String
deriving DecidableEq, Repr

/-- The two session-state lists of `App`. -/
structure SessionState where
  transcripts : List Fragment
  errors : List ErrRec
deriving DecidableEq, Repr

/-- The success branch of `processChunk`: append one fragment to
`transcripts` and drop every error record of the same chunk number
(`setErrors((e) => e.filter((err) => err.chunk !== chunkNumber))`). -/
def recordSuccess (st : SessionState) (text : String) (chunk : Nat) : SessionState :=
  { transcripts := st.transcripts ++ [{ text := text, chunk := chunk }]
    errors := st.errors.filter (fun e => e.chunk != chunk) }

/-- The terminal-failure branch of `processChunk`: append one error
record to `errors`. -/
def recordFailure (st : SessionState) (chunk : Nat) (msg : String) : SessionState :=
  { st with errors := st.errors ++ [{ chunk := chunk, error := msg }] }

/-- What one `fetch` of `/transcribe` produced, as seen by the client:
a 2xx JSON body `{transcript, language}`, a non-ok status whose JSON body
carried `errorData.error = errMsg` (the empty string standing for a
missing/falsy field, `"Unknown error"` for an unparsable body), an
`AbortError` from the 10-minute client deadline, or a network-level
rejection with message `msg`. -/
inductive FetchOutcome
  | httpOk (transcript language : String)
  | httpErr (status : Nat) (errMsg : String)
  | abortTimeout
  | netErr (msg : String)
deriving Repr

/-- The success test of one attempt:
`if (json.transcript && json.transcript.trim())` — only a 2xx body whose
transcript is non-empty after trimming counts as success.  Every other
outcome throws inside the `try`. -/
def attemptSucceeds : FetchOutcome → Option (String × String)
  | .httpOk t l => if t != "" && jsTrim t != "" then some (t, l) else none
  | _ => none

/-- The message recorded if this outcome is the last attempt's:
`err.name === "AbortError" ? "Request timeout" : err.message || "Unknown
error"`, where the thrown message was `"Empty transcript received"` for a
whitespace-only 2xx body and `errorData.error || "HTTP <status>"` for a
non-ok response. -/
def terminalMsg : FetchOutcome → String
  | .httpOk _ _ => "Empty transcript received"
  | .httpErr status msg => if msg = "" then "HTTP " ++ toString status else msg
  | .abortTimeout => "Request timeout"
  | .netErr m => if m = "" then "Unknown error" else m

/-- Result of one `processChunk(blob, chunkNumber, retries)` call:
whether the success branch returned, whether the final `throw err` fired,
how many attempts were made, the backoff waits performed (in ms, in
order), and the session state afterwards. -/
structure ProcOutcome where
  succeeded : Bool
  threw : Bool
  attemptsMade : Nat
  delays : List Nat
  st : SessionState
deriving Repr

/-- The `for (let attempt = 1; attempt <= retries; attempt++)` loop of
`processChunk`, with `fuel = retries - attempt + 1` remaining iterations.
On success the fragment is recorded and the loop returns; on failure at
`attempt === retries` (i.e. `fuel = 1`) the error record is appended and
the error re-thrown; otherwise the loop sleeps
`1000 * Math.pow(2, attempt - 1)` ms and continues.  With `fuel = 0` the
loop body never runs and the function falls through (no record, no
throw), matching `retries = 0` in the source. -/
def processChunkLoop (oracle : Nat → FetchOutcome) (chunk : Nat) :
    Nat → Nat → List Nat → SessionState → ProcOutcome
  | 0, attempt, ds, st =>
      { succeeded := false, threw := false, attemptsMade := attempt - 1
        delays := ds, st := st }
  | fuel + 1, attempt, ds, st =>
      match attemptSucceeds (oracle attempt) with
      | some (t, _l) =>
          { succeeded := true, threw := false, attemptsMade := attempt
            delays := ds, st := recordSuccess st t chunk }
      | none =>
          if fuel = 0 then
            { succeeded := false, threw := true, attemptsMade := attempt
              delays := ds
              st := recordFailure st chunk (terminalMsg (oracle attempt)) }
          else
            processChunkLoop oracle chunk fuel (attempt + 1)
              (ds ++ [1000 * 2 ^ (attempt - 1)]) st

/-- `MAX_RETRIES` (App.jsx line 21), the default `retries` argument. -/
def MAX_RETRIES : Nat := 3

/-- `processChunk(blob, chunkNumber, retries)`, with the per-attempt
server outcome supplied by `oracle` (attempt numbers start at 1). -/
def processChunk (oracle : Nat → FetchOutcome) (chunk : Nat) (retries : Nat)
    (st : SessionState) : ProcOutcome :=
  processChunkLoop oracle chunk retries 1 [] st

/-! ## Client: the sequential job queue (src/frontend/src/App.jsx)

`processingQueueRef` is the backlog, `isProcessingRef` the busy flag,
`chunkCounterRef` the sequence-number counter.  `active` is the ghost
list of chunk numbers currently awaited inside `processQueue` (between
the `shift()` and the completion of `await processChunk`), and `done`
the chunk numbers whose `processChunk` has returned or thrown, in
completion order.  The 500 ms `setTimeout(() => processQueue(), 500)`
continuation is merged into the finish step: during that gap
`isProcessingRef` stays true, so arrivals can only append to the
backlog — exactly what the merged step allows. -/

/-- Queue state: `chunkCounterRef`, `processingQueueRef` (chunk numbers;
the blobs are opaque), the ghost in-flight list, `isProcessingRef`, and
the completion log. -/
structure QState where
  counter : Nat
  queue : List Nat
  active : List Nat
  isProcessing : Bool
  done : List Nat
deriving DecidableEq, Repr

/-- The body of `processQueue`: if the backlog is empty, clear the busy
flag and return; otherwise set it, `shift()` the head and start awaiting
it. -/
def startHead (s : QState) : QState :=
  match s.queue with
  | [] => { s with isProcessing := false }
  | h :: t => { s with isProcessing := true, queue := t, active := s.active ++ [h] }

/-- `recorder.ondataavailable` with non-empty data: increment the
counter, push `{blob, chunkNumber}` onto the backlog, and call
`processQueue()` only if `isProcessingRef.current` is false. -/
def stepArrive (s : QState) : QState :=
  let s' := { s with counter := s.counter + 1, queue := s.queue ++ [s.counter + 1] }
  if s.isProcessing then s' else startHead s'

/-- Completion of the awaited `processChunk` (normal return or caught
throw — the `catch` ignores the error): log the finished chunk, then
either continue with the next backlog head (via the delayed
`processQueue()`) or go idle. -/
def stepFinish (s : QState) (_success : Bool) : QState :=
  match s.active with
  | [] => s
  | k :: rest =>
      let s' := { s with active := rest, done := s.done ++ [k] }
      if s'.queue.isEmpty then { s' with isProcessing := false } else startHead s'

/-- `recorder.onstop`: call `processQueue()` only if the backlog is
non-empty and the busy flag is clear. -/
def stepKick (s : QState) : QState :=
  if !s.queue.isEmpty && !s.isProcessing then startHead s else s

/-- The externally triggered events of the queue. -/
inductive QEvent
  | arrive
  | kick
  | finish (success : Bool)

/-- One event step. -/
def qstep (s : QState) : QEvent → QState
  | .arrive => stepArrive s
  | .kick => stepKick s
  | .finish b => stepFinish s b

/-- The state right after `startRecording` resets the refs. -/
def qinit : QState :=
  { counter := 0, queue := [], active := [], isProcessing := false, done := [] }

/-- Run the queue from the initial state through a list of events. -/
def qrun (evs : List QEvent) : QState :=
  evs.foldl qstep qinit

/-- The queue invariant: idle means nothing in flight and nothing
backlogged; busy means exactly one job in flight; and the completion
log, the in-flight job and the backlog together list the produced
sequence numbers `1, …, counter` in order. -/
def QInv (s : QState) : Prop :=
  (s.isProcessing = false → s.active = [] ∧ s.queue = []) ∧
  (s.isProcessing = true → s.active.length = 1) ∧
  s.done ++ s.active ++ s.queue = List.range' 1 s.counter

theorem qinv_init : QInv qinit := by
  refine ⟨fun _ => ⟨rfl, rfl⟩, fun h => by simp [qinit] at h ⊢, ?_⟩
  simp [qinit]

theorem qinv_step (s : QState) (e : QEvent) (h : QInv s) : QInv (qstep s e) := by
  obtain ⟨h1, h2, h3⟩ := h
  cases e with
  | arrive =>
    cases hp : s.isProcessing with
    | true =>
      refine ⟨by simp [qstep, stepArrive, hp], by simp [qstep, stepArrive, hp, h2 hp], ?_⟩
      simp only [qstep, stepArrive, hp, if_pos]
      rw [List.range'_concat]
      simp only [Nat.one_mul]
      simp only [← List.append_assoc] at h3 ⊢
      rw [h3]
      simp [Nat.add_comm]
    | false =>
      obtain ⟨ha, hq⟩ := h1 hp
      refine ⟨?_, ?_, ?_⟩ <;>
        simp only [qstep, stepArrive, hp, Bool.false_eq_true, if_neg, ite_false,
          startHead, hq, ha, List.nil_append]
      · intro hfalse
        simp at hfalse
      · intro _
        rfl
      · rw [List.range'_concat]
        simp only [Nat.one_mul]
        rw [hq, ha] at h3
        simp only [List.append_nil] at h3
        simp [h3, Nat.add_comm 1 s.counter]
  | kick =>
    cases hp : s.isProcessing with
    | true => simpa [qstep, stepKick, hp] using ⟨h1, h2, h3⟩
    | false =>
      obtain ⟨ha, hq⟩ := h1 hp
      simpa [qstep, stepKick, hp, hq] using ⟨h1, h2, h3⟩
  | finish b =>
    cases ha : s.active with
    | nil => simpa [qstep, stepFinish, ha] using ⟨h1, h2, h3⟩
    | cons k rest =>
      have hp : s.isProcessing = true := by
        cases hp : s.isProcessing with
        | true => rfl
        | false => simp [(h1 hp).1] at ha
      have hrest : rest = [] := by
        have := h2 hp
        rw [ha] at this
        simpa using this
      subst hrest
      cases hq : s.queue with
      | nil =>
        have hstep : qstep s (QEvent.finish b) =
            { counter := s.counter, queue := [], active := [],
              isProcessing := false, done := s.done ++ [k] } := by
          simp [qstep, stepFinish, ha, hq]
        rw [hstep]
        refine ⟨fun _ => ⟨rfl, rfl⟩, fun hfalse => by simp at hfalse, ?_⟩
        rw [ha, hq] at h3
        simpa using h3
      | cons h' t' =>
        have hstep : qstep s (QEvent.finish b) =
            { counter := s.counter, queue := t', active := [h'],
              isProcessing := true, done := s.done ++ [k] } := by
          simp [qstep, stepFinish, ha, hq, startHead]
        rw [hstep]
        refine ⟨fun hfalse => by simp at hfalse, fun _ => rfl, ?_⟩
        rw [ha, hq] at h3
        simpa using h3

theorem qinv_qrun (evs : List QEvent) : QInv (qrun evs) := by
  suffices h : ∀ s, QInv s → QInv (evs.foldl qstep s) from h qinit qinv_init
  induction evs with
  | nil => exact fun s hs => hs
  | cons e t ih => exact fun s hs => ih (qstep s e) (qinv_step s e hs)

/-! ### Behaviour of the retry loop -/

theorem processChunkLoop_fail_last (oracle : Nat → FetchOutcome) (chunk attempt : Nat)
    (ds : List Nat) (st : SessionState) (h : attemptSucceeds (oracle attempt) = none) :
    processChunkLoop oracle chunk 1 attempt ds st =
      { succeeded := false, threw := true, attemptsMade := attempt, delays := ds,
        st := recordFailure st chunk (terminalMsg (oracle attempt)) } := by
  simp [processChunkLoop, h]

theorem processChunkLoop_allFail (oracle : Nat → FetchOutcome) (chunk : Nat)
    (h : ∀ a, attemptSucceeds (oracle a) = none) :
    ∀ fuel attempt ds st, processChunkLoop oracle chunk (fuel + 1) attempt ds st =
      { succeeded := false, threw := true, attemptsMade := attempt + fuel,
        delays := ds ++ (List.range' attempt fuel).map (fun a => 1000 * 2 ^ (a - 1)),
        st := recordFailure st chunk (terminalMsg (oracle (attempt + fuel))) } := by
  intro fuel
  induction fuel with
  | zero =>
    intro attempt ds st
    simp [processChunkLoop, h attempt]
  | succ fuel ih =>
    intro attempt ds st
    rw [show fuel + 1 + 1 = (fuel + 1) + 1 from rfl]
    rw [processChunkLoop]
    rw [h attempt]
    simp only [Nat.succ_ne_zero, if_neg, ite_false]
    rw [ih (attempt + 1)]
    have harith : attempt + 1 + fuel = attempt + (fuel + 1) := by omega
    rw [List.range'_succ, harith]
    simp [List.append_assoc]

theorem processChunkLoop_success (oracle : Nat → FetchOutcome) (chunk fuel attempt : Nat)
    (ds : List Nat) (st : SessionState) (t l : String)
    (h : attemptSucceeds (oracle attempt) = some (t, l)) :
    processChunkLoop oracle chunk (fuel + 1) attempt ds st =
      { succeeded := true, threw := false, attemptsMade := attempt, delays := ds,
        st := recordSuccess st t chunk } := by
  simp [processChunkLoop, h]

/-- C2: a job whose invocation fails on every attempt is attempted
exactly `MAX_RETRIES = 3` times, with inter-attempt waits of
`1000 * 2 ^ (attempt - 1)` ms (1 s, then 2 s), then yields exactly one
new ErrorRecord for its chunk number (the transcript list untouched);
and a failing completion does not block the queue: with a job in flight
and a non-empty backlog, the finish step immediately puts the next
backlog head in flight. -/
theorem claim2_retry_exhaustion (oracle : Nat → FetchOutcome) (chunk : Nat) (st : SessionState)
    (h : ∀ a, attemptSucceeds (oracle a) = none) :
    processChunk oracle chunk MAX_RETRIES st =
      { succeeded := false, threw := true, attemptsMade := 3,
        delays := [1000 * 2 ^ 0, 1000 * 2 ^ 1],
        st := { transcripts := st.transcripts,
                errors := st.errors ++ [{ chunk := chunk, error := terminalMsg (oracle 3) }] } } ∧
    (∀ s : QState, ∀ k nxt tl, s.active = [k] → s.queue = nxt :: tl →
      (stepFinish s false).active = [nxt] ∧ (stepFinish s false).isProcessing = true ∧
      (stepFinish s false).done = s.done ++ [k]) := by
  constructor
  · have hrun := processChunkLoop_allFail oracle chunk h 2 1 [] st
    rw [show List.range' 1 2 = [1, 2] from rfl] at hrun
    simp only [List.map_cons, List.map_nil, List.nil_append] at hrun
    norm_num at hrun
    exact hrun
  · intro s k nxt tl ha hq
    simp [stepFinish, ha, hq, startHead]

/-- Witness for C2 at a concrete always-failing oracle. -/
theorem claim2_retry_exhaustion_witness :
    processChunk (fun _ => FetchOutcome.httpErr 500 "boom") 7 MAX_RETRIES ⟨[], []⟩ =
      { succeeded := false, threw := true, attemptsMade := 3,
        delays := [1000 * 2 ^ 0, 1000 * 2 ^ 1],
        st := { transcripts := [],
                errors := [{ chunk := 7, error := "boom" }] } } := by
  have h := (claim2_retry_exhaustion (fun _ => FetchOutcome.httpErr 500 "boom") 7 ⟨[], []⟩
    (fun _ => rfl)).1
  rw [h]
  rfl

theorem attemptSucceeds_eq_none_of_whitespace (o : FetchOutcome)
    (h : ∀ t l, o = FetchOutcome.httpOk t l → jsTrim t = "") :
    attemptSucceeds o = none := by
  cases o with
  | httpOk t l =>
    have ht := h t l rfl
    simp [attemptSucceeds, ht]
  | httpErr s m => rfl
  | abortTimeout => rfl
  | netErr m => rfl

/-- C5: an invocation result whose transcript is empty or
whitespace-only never reaches the transcript list: if every 2xx body the
server returns for this chunk carries a whitespace-only transcript, then
`processChunk` treats every attempt as failed — the transcript list is
unchanged and the success branch is never taken. -/
theorem claim5_empty_never_recorded (oracle : Nat → FetchOutcome) (chunk retries : Nat)
    (st : SessionState)
    (h : ∀ a t l, oracle a = FetchOutcome.httpOk t l → jsTrim t = "") :
    (processChunk oracle chunk retries st).st.transcripts = st.transcripts ∧
    (processChunk oracle chunk retries st).succeeded = false := by
  have hnone : ∀ a, attemptSucceeds (oracle a) = none := fun a =>
    attemptSucceeds_eq_none_of_whitespace (oracle a) (fun t l hh => h a t l hh)
  cases retries with
  | zero => exact ⟨rfl, rfl⟩
  | succ f =>
    rw [processChunk, processChunkLoop_allFail oracle chunk hnone f 1 [] st]
    exact ⟨rfl, rfl⟩

/-- Witness for C5: a server that always answers 200 with a
whitespace-only transcript never extends the transcript list. -/
theorem claim5_empty_never_recorded_witness :
    (processChunk (fun _ => FetchOutcome.httpOk " " "en") 2 MAX_RETRIES ⟨[], []⟩).st.transcripts
        = [] ∧
    (processChunk (fun _ => FetchOutcome.httpOk " " "en") 2 MAX_RETRIES ⟨[], []⟩).succeeded
        = false :=
  claim5_empty_never_recorded (fun _ => FetchOutcome.httpOk " " "en") 2 MAX_RETRIES ⟨[], []⟩
    (fun _ t _ hh => by
      injection hh with h1 h2
      subst h1
      decide)

/-- C8: a successful outcome appends exactly one TranscriptFragment to
the ordered transcript list and removes exactly the ErrorRecords whose
chunk number equals the succeeded chunk's, keeping all others in their
original order (the error list afterwards is a sublist of the one
before). -/
theorem claim8_success_recording (oracle : Nat → FetchOutcome) (chunk retries : Nat)
    (st : SessionState) (t l : String)
    (h1 : oracle 1 = FetchOutcome.httpOk t l) (h2 : (t != "" && jsTrim t != "") = true)
    (h3 : 1 ≤ retries) :
    (processChunk oracle chunk retries st).st.transcripts
        = st.transcripts ++ [{ text := t, chunk := chunk }] ∧
    (∀ e, e ∈ (processChunk oracle chunk retries st).st.errors ↔
        e ∈ st.errors ∧ e.chunk ≠ chunk) ∧
    List.Sublist (processChunk oracle chunk retries st).st.errors st.errors ∧
    (processChunk oracle chunk retries st).attemptsMade = 1 := by
  obtain ⟨f, rfl⟩ : ∃ f, retries = f + 1 := ⟨retries - 1, by omega⟩
  have hs : attemptSucceeds (oracle 1) = some (t, l) := by
    simp [attemptSucceeds, h1, h2]
  rw [processChunk, processChunkLoop_success oracle chunk f 1 [] st t l hs]
  refine ⟨rfl, ?_, ?_, rfl⟩
  · intro e
    simp [recordSuccess, List.mem_filter]
  · exact List.filter_sublist _

/-- Witness for C8: a first-attempt success with non-empty transcript
appends the fragment, clears that chunk's old error record, and keeps
the other chunk's record. -/
theorem claim8_success_recording_witness :
    (processChunk (fun _ => FetchOutcome.httpOk "hello" "en") 4 MAX_RETRIES
        ⟨[], [{ chunk := 4, error := "x" }, { chunk := 2, error := "y" }]⟩).st.transcripts
      = [{ text := "hello", chunk := 4 }] ∧
    ({ chunk := 2, error := "y" } ∈
      (processChunk (fun _ => FetchOutcome.httpOk "hello" "en") 4 MAX_RETRIES
        ⟨[], [{ chunk := 4, error := "x" }, { chunk := 2, error := "y" }]⟩).st.errors) ∧
    (processChunk (fun _ => FetchOutcome.httpOk "hello" "en") 4 MAX_RETRIES
        ⟨[], [{ chunk := 4, error := "x" }, { chunk := 2, error := "y" }]⟩).attemptsMade = 1 := by
  have h := claim8_success_recording (fun _ => FetchOutcome.httpOk "hello" "en") 4 MAX_RETRIES
    ⟨[], [{ chunk := 4, error := "x" }, { chunk := 2, error := "y" }]⟩ "hello" "en"
    rfl (by decide) (by decide)
  refine ⟨h.1, ?_, h.2.2.2⟩
  exact (h.2.1 { chunk := 2, error := "y" }).2 ⟨by simp, by decide⟩

/-- C1: at most one job is ever in flight, and chunks are dequeued and
processed in strictly increasing sequence-number order.  For every event
sequence (arrivals may happen while a job is in flight), the in-flight
set has at most one element, the completion log followed by the
in-flight job and the backlog is exactly `1, …, counter` in order (so no
chunk is skipped or reordered, and chunk `k + 1` enters flight only
after chunk `k` completed), and in particular all chunk numbers ever
processed occur in strictly increasing order. -/
theorem claim1_sequential_queue (evs : List QEvent) :
    ((qrun evs).active).length ≤ 1 ∧
    (qrun evs).done ++ (qrun evs).active ++ (qrun evs).queue
      = List.range' 1 (qrun evs).counter ∧
    List.Pairwise (· < ·) ((qrun evs).done ++ (qrun evs).active) := by
  obtain ⟨h1, h2, h3⟩ := qinv_qrun evs
  refine ⟨?_, h3, ?_⟩
  · cases hp : (qrun evs).isProcessing with
    | false => simp [(h1 hp).1]
    | true => simp [h2 hp]
  · have hsub : List.Sublist ((qrun evs).done ++ (qrun evs).active)
        ((qrun evs).done ++ (qrun evs).active ++ (qrun evs).queue) :=
      List.sublist_append_left _ _
    rw [h3] at hsub
    exact (List.pairwise_lt_range' 1 (qrun evs).counter).sublist hsub

/-! ### Temporary-artifact cleanup -/

theorem not_mem_cleanupFiles {t : String} (targets fs : List String) (ht : t ∈ targets) :
    t ∉ cleanupFiles targets fs := by
  intro hmem
  rw [cleanupFiles, List.mem_filter] at hmem
  simp only [Bool.not_eq_true', decide_eq_false_iff_not] at hmem
  exact hmem.2 ht

/-- C3: whenever the handler creates temporary artifacts (an audio part
was uploaded, so multer wrote the raw file), both the raw file and the
normalized `.wav` are absent from the scratch directory when the handler
settles, on every exit path — success, conversion failure or timeout,
missing model, missing binary, inference failure or timeout. -/
theorem claim3_cleanup_every_path (env : TranscribeEnv) (fs₀ : List String)
    (h : env.hasFile = true) :
    env.inputPath ∉ (transcribe env fs₀).fs ∧
    (env.inputPath ++ ".wav") ∉ (transcribe env fs₀).fs := by
  have key : ∀ fsA : List String,
      env.inputPath ∉ cleanupFiles [env.inputPath, env.inputPath ++ ".wav"] fsA ∧
      (env.inputPath ++ ".wav") ∉ cleanupFiles [env.inputPath, env.inputPath ++ ".wav"] fsA :=
    fun fsA => ⟨not_mem_cleanupFiles _ fsA (by simp), not_mem_cleanupFiles _ fsA (by simp)⟩
  cases hw : env.whisper <;> cases hf : env.ffmpeg <;>
    cases hm : env.modelExists <;> cases hb : env.binExists <;>
      simp only [transcribe, h, Bool.true_eq_false, if_neg, ite_false, hw, hf, hm, hb,
        Bool.false_eq_true, ite_true, if_pos] <;>
    exact key _

/-- Witness for C3 on a fully successful invocation. -/
theorem claim3_cleanup_every_path_witness :
    "tmp/w3" ∉ (transcribe
      { hasFile := true, inputPath := "tmp/w3", ffmpeg := .ok, ffmpegCreatedWav := false,
        modelExists := true, binExists := true, langParam := some "en",
        whisper := .ok " hi " } []).fs ∧
    ("tmp/w3" ++ ".wav") ∉ (transcribe
      { hasFile := true, inputPath := "tmp/w3", ffmpeg := .ok, ffmpegCreatedWav := false,
        modelExists := true, binExists := true, langParam := some "en",
        whisper := .ok " hi " } []).fs :=
  claim3_cleanup_every_path
    { hasFile := true, inputPath := "tmp/w3", ffmpeg := .ok, ffmpegCreatedWav := false,
      modelExists := true, binExists := true, langParam := some "en",
      whisper := .ok " hi " } [] rfl

/-! ### C4: what the endpoint does with empty inference output -/

/-- Environment for the C4 counterexample: everything succeeds, but
whisper-cli exits zero with whitespace-only stdout. -/
def envWhitespaceOut : TranscribeEnv :=
  { hasFile := true, inputPath := "tmp/c4", ffmpeg := .ok, ffmpegCreatedWav := false,
    modelExists := true, binExists := true, langParam := none, whisper := .ok " " }

/-- Counterexample to C4: when the inference tool exits zero with
whitespace-only stdout, the `/transcribe` handler does NOT classify the
attempt as a failure — it returns the trimmed (hence empty) output as
the transcript of a 200 success response. -/
theorem claim4_counterexample :
    (transcribe envWhitespaceOut []).response = Response.ok "" "auto" := by
  rfl

/-- C4 (amended): on a zero-exit inference run the endpoint always
returns a success response carrying the trimmed stdout, with no
emptiness check — empty or whitespace-only output is forwarded as a
valid transcript; the failure classification of empty output happens
only in the client (`processChunk`), not in the Transcription Invoker. -/
theorem claim4_amended_endpoint_forwards_empty (env : TranscribeEnv) (fs₀ : List String)
    (out : String) (h : env.hasFile = true) (hf : env.ffmpeg = .ok)
    (hm : env.modelExists = true) (hb : env.binExists = true)
    (hw : env.whisper = .ok out) :
    (transcribe env fs₀).response = Response.ok (jsTrim out) (effectiveLanguage env.langParam) := by
  simp [transcribe, h, hf, hm, hb, hw]

/-- Witness for amended C4. -/
theorem claim4_amended_witness :
    (transcribe
      { hasFile := true, inputPath := "tmp/w4", ffmpeg := .ok, ffmpegCreatedWav := false,
        modelExists := true, binExists := true, langParam := some "en",
        whisper := .ok "\t\n" } []).response
      = Response.ok (jsTrim "\t\n") (effectiveLanguage (some "en")) :=
  claim4_amended_endpoint_forwards_empty
    { hasFile := true, inputPath := "tmp/w4", ffmpeg := .ok, ffmpegCreatedWav := false,
      modelExists := true, binExists := true, langParam := some "en",
      whisper := .ok "\t\n" } [] "\t\n" rfl rfl rfl rfl rfl

/-! ### C6: timeout handling of the subprocess stages -/

/-- Environment for the C6 counterexample: the conversion deadline
expires (a partial `.wav` had been written). -/
def envFfmpegTimeout : TranscribeEnv :=
  { hasFile := true, inputPath := "tmp/c6", ffmpeg := .timeout, ffmpegCreatedWav := true,
    modelExists := true, binExists := true, langParam := none, whisper := .ok "x" }

/-- Counterexample to C6: on a conversion-deadline expiry the attempt is
classified as a timeout failure and both artifacts are deleted, but the
`kills` trace is empty — the handler sends no signal to the subprocess,
so the external process is NOT forcibly terminated (the `setTimeout`
callback only rejects the promise; the `execFile` child is never
killed). -/
theorem claim6_counterexample :
    transcribe envFfmpegTimeout [] =
      { response := Response.serverError
          "Processing timeout - file may be too large or processing took too long",
        fs := [], kills := [], whisperArgs := none } := by
  rfl

/-- C6 (amended): on expiry of either stage's deadline the attempt is
rejected and classified as a timeout failure (the 500 error message the
client receives), the temporary artifacts are deleted, and the failure
is handed to the client's normal retry path (the same bounded retry as
any other failure) — but the subprocess is not forcibly terminated: no
kill is ever issued. -/
theorem claim6_amended_timeout_no_kill (env : TranscribeEnv) (fs₀ : List String)
    (h : env.hasFile = true) :
    (env.ffmpeg = .timeout →
      (transcribe env fs₀).response = Response.serverError
        "Processing timeout - file may be too large or processing took too long" ∧
      env.inputPath ∉ (transcribe env fs₀).fs ∧
      (env.inputPath ++ ".wav") ∉ (transcribe env fs₀).fs ∧
      (transcribe env fs₀).kills = []) ∧
    (env.ffmpeg = .ok → env.modelExists = true → env.binExists = true →
      env.whisper = .timeout →
      (transcribe env fs₀).response = Response.serverError
        "Processing timeout - file may be too large or processing took too long" ∧
      env.inputPath ∉ (transcribe env fs₀).fs ∧
      (env.inputPath ++ ".wav") ∉ (transcribe env fs₀).fs ∧
      (transcribe env fs₀).kills = []) ∧
    (∀ chunk st, (processChunk
        (fun _ => FetchOutcome.httpErr 500
          "Processing timeout - file may be too large or processing took too long")
        chunk MAX_RETRIES st).attemptsMade = 3) := by
  refine ⟨?_, ?_, ?_⟩
  · intro hf
    have hcls : classifyError "FFmpeg conversion timeout" =
        "Processing timeout - file may be too large or processing took too long" := by
      rfl
    cases hw : env.whisper <;>
      simp only [transcribe, h, Bool.true_eq_false, if_neg, ite_false, hw, hf, hcls] <;>
      exact ⟨by trivial, not_mem_cleanupFiles _ _ (by simp), not_mem_cleanupFiles _ _ (by simp),
        by trivial⟩
  · intro hf hm hb hw
    simp only [transcribe, h, Bool.true_eq_false, if_neg, ite_false, hw, hf, hm, hb]
    exact ⟨by trivial, not_mem_cleanupFiles _ _ (by simp), not_mem_cleanupFiles _ _ (by simp),
      by trivial⟩
  · intro chunk st
    have hrun := processChunkLoop_allFail
      (fun _ => FetchOutcome.httpErr 500
        "Processing timeout - file may be too large or processing took too long")
      chunk (fun _ => rfl) 2 1 [] st
    rw [processChunk, MAX_RETRIES, hrun]

/-- Witness for amended C6 at the conversion-timeout environment. -/
theorem claim6_amended_witness :
    (transcribe envFfmpegTimeout []).response = Response.serverError
      "Processing timeout - file may be too large or processing took too long" ∧
    (transcribe envFfmpegTimeout []).kills = [] ∧
    (processChunk
      (fun _ => FetchOutcome.httpErr 500
        "Processing timeout - file may be too large or processing took too long")
      9 MAX_RETRIES ⟨[], []⟩).attemptsMade = 3 := by
  have h := claim6_amended_timeout_no_kill envFfmpegTimeout [] rfl
  exact ⟨(h.1 rfl).1, (h.1 rfl).2.2.2, h.2.2 9 ⟨[], []⟩⟩

/-! ### C7: input errors -/

/-- An oracle describing a server that always answers the input-error
rejection: HTTP 400 with `{ error: "No audio file provided" }`. -/
def inputErrOracle : Nat → FetchOutcome :=
  fun _ => FetchOutcome.httpErr 400 "No audio file provided"

/-- Counterexample to C7: the client's retry loop does not special-case
input errors.  Faced with the backend's 400 input-error response,
`processChunk` makes all three attempts with the usual backoff waits
before surfacing the single ErrorRecord — the claim's "no retry attempt
is made for an input error" fails (three attempts, not one). -/
theorem claim7_counterexample :
    processChunk inputErrOracle 1 MAX_RETRIES ⟨[], []⟩ =
      { succeeded := false, threw := true, attemptsMade := 3,
        delays := [1000, 2000],
        st := { transcripts := [],
                errors := [{ chunk := 1, error := "No audio file provided" }] } } := by
  rfl

/-- C7 (amended): a request with no audio is rejected immediately by the
backend with HTTP 400 and no temporary artifact is created (no
subprocess is invoked either); but the client treats the resulting
error like any other failure — the input error consumes the full retry
budget (3 attempts with backoff) before one ErrorRecord surfaces to
Session State. -/
theorem claim7_amended_input_error (env : TranscribeEnv) (fs₀ : List String)
    (h : env.hasFile = false) :
    transcribe env fs₀ =
      { response := Response.badRequest "No audio file provided",
        fs := fs₀, kills := [], whisperArgs := none } ∧
    (∀ chunk st, processChunk inputErrOracle chunk MAX_RETRIES st =
      { succeeded := false, threw := true, attemptsMade := 3,
        delays := [1000 * 2 ^ 0, 1000 * 2 ^ 1],
        st := { transcripts := st.transcripts,
                errors := st.errors ++
                  [{ chunk := chunk, error := "No audio file provided" }] } }) := by
  constructor
  · simp [transcribe, h]
  · intro chunk st
    have hrun := processChunkLoop_allFail inputErrOracle chunk (fun _ => rfl) 2 1 [] st
    rw [show List.range' 1 2 = [1, 2] from rfl] at hrun
    simp only [List.map_cons, List.map_nil, List.nil_append] at hrun
    norm_num at hrun
    rw [processChunk, MAX_RETRIES, hrun]
    rfl

/-- Witness for amended C7 at a concrete no-audio request. -/
theorem claim7_amended_witness :
    transcribe
      { hasFile := false, inputPath := "", ffmpeg := .ok, ffmpegCreatedWav := false,
        modelExists := true, binExists := true, langParam := none, whisper := .ok "x" }
      ["other.tmp"] =
      { response := Response.badRequest "No audio file provided",
        fs := ["other.tmp"], kills := [], whisperArgs := none } ∧
    (processChunk inputErrOracle 2 MAX_RETRIES ⟨[], []⟩).attemptsMade = 3 := by
  have h := claim7_amended_input_error
    { hasFile := false, inputPath := "", ffmpeg := .ok, ffmpegCreatedWav := false,
      modelExists := true, binExists := true, langParam := none, whisper := .ok "x" }
    ["other.tmp"] rfl
  exact ⟨h.1, by rw [h.2 2 ⟨[], []⟩]⟩

/-! ### C9: boundedness of the error list -/

/-- A server that fails every attempt with a 500. -/
def alwaysFailOracle : Nat → FetchOutcome :=
  fun _ => FetchOutcome.httpErr 500 "server error"

/-- `n` consecutive chunks, each failing all retries, starting from the
empty session state. -/
def failRun : Nat → SessionState
  | 0 => ⟨[], []⟩
  | n + 1 => (processChunk alwaysFailOracle (n + 1) MAX_RETRIES (failRun n)).st

theorem failRun_errors_length (n : Nat) : ((failRun n).errors).length = n := by
  induction n with
  | zero => rfl
  | succ n ih =>
    have hrun := processChunkLoop_allFail alwaysFailOracle (n + 1) (fun _ => rfl)
      2 1 [] (failRun n)
    rw [failRun, processChunk, MAX_RETRIES, hrun]
    simp [recordFailure, ih]

/-- Counterexample to C9: the error list held in Session State does not
stay within any fixed size bound — `setErrors((e) => [...e, ...])`
appends one record per failed chunk without bound, so for every proposed
bound `B` a run of `B + 1` failed chunks exceeds it.  Only the rendered
view (`errors.slice(-5)`) is bounded. -/
theorem claim9_counterexample :
    ¬ ∃ B : Nat, ∀ n : Nat, ((failRun n).errors).length ≤ B := by
  rintro ⟨B, hB⟩
  have h := hB (B + 1)
  rw [failRun_errors_length] at h
  omega

/-- `errors.slice(-5)` (App.jsx line 322): the at-most-5 most recent
error records, as rendered by the UI. -/
def displayedErrors (l : List ErrRec) : List ErrRec :=
  l.drop (l.length - 5)

/-- C9 (amended): recording a failure appends to the Session-State error
list without bound — after `n` fully failed chunks the list has exactly
`n` records; only the UI display is bounded: it shows the at most 5 most
recent entries (a suffix of the list of length at most 5). -/
theorem claim9_amended_unbounded_list_bounded_display (n : Nat) :
    ((failRun n).errors).length = n ∧
    (displayedErrors ((failRun n).errors)).length ≤ 5 ∧
    List.IsSuffix (displayedErrors ((failRun n).errors)) ((failRun n).errors) := by
  refine ⟨failRun_errors_length n, ?_, ?_⟩
  · rw [displayedErrors, List.length_drop]
    omega
  · exact List.drop_suffix _ _

/-! ### C10: the language selector -/

/-- Environment for the C10 counterexample: the request supplies the
empty string as the `language` query parameter (`?language=`). -/
def envEmptyLang : TranscribeEnv :=
  { hasFile := true, inputPath := "tmp/u1", ffmpeg := .ok, ffmpegCreatedWav := false,
    modelExists := true, binExists := true, langParam := some "", whisper := .ok "hello" }

/-- Counterexample to C10: the supplied language string is not always
passed verbatim.  When the supplied string is `""` (the one falsy
string), `req.query.language || "auto"` replaces it: the `-l` argument
becomes `"auto"` and the success response's language field is `"auto"`,
not the supplied `""`. -/
theorem claim10_counterexample :
    (transcribe envEmptyLang []).whisperArgs =
      some ["-m", modelPath, "-f", "tmp/u1.wav", "-l", "auto", "--no-prints"] ∧
    (transcribe envEmptyLang []).response = Response.ok "hello" "auto" ∧
    "auto" ≠ "" := by
  exact ⟨rfl, rfl, by decide⟩

/-- C10 (amended): the endpoint does not validate the language
selector.  A missing parameter and the empty string both default to
`"auto"`; every other supplied string is passed verbatim as the `-l`
argument of whisper-cli; and the language field of a success response
always equals that effective selector, never a language detected by the
tool. -/
theorem claim10_amended_language_passthrough (env : TranscribeEnv) (fs₀ : List String)
    (out : String) (h : env.hasFile = true) (hf : env.ffmpeg = .ok)
    (hm : env.modelExists = true) (hb : env.binExists = true)
    (hw : env.whisper = .ok out) :
    (transcribe env fs₀).whisperArgs =
      some ["-m", modelPath, "-f", env.inputPath ++ ".wav", "-l",
        effectiveLanguage env.langParam, "--no-prints"] ∧
    (transcribe env fs₀).response
      = Response.ok (jsTrim out) (effectiveLanguage env.langParam) ∧
    (env.langParam = none → effectiveLanguage env.langParam = "auto") ∧
    (env.langParam = some "" → effectiveLanguage env.langParam = "auto") ∧
    (∀ s, env.langParam = some s → s ≠ "" → effectiveLanguage env.langParam = s) := by
  refine ⟨?_, ?_, ?_, ?_, ?_⟩
  · simp [transcribe, h, hf, hm, hb, hw]
  · simp [transcribe, h, hf, hm, hb, hw]
  · intro hl
    rw [hl]
    rfl
  · intro hl
    rw [hl]
    rfl
  · intro s hl hs
    rw [hl]
    simp [effectiveLanguage, hs]

/-- Witness for amended C10: a non-empty supplied selector is passed
verbatim and echoed in the response. -/
theorem claim10_amended_witness :
    (transcribe
      { hasFile := true, inputPath := "tmp/w10", ffmpeg := .ok, ffmpegCreatedWav := false,
        modelExists := true, binExists := true, langParam := some "id",
        whisper := .ok "halo" } []).whisperArgs =
      some ["-m", modelPath, "-f", "tmp/w10" ++ ".wav", "-l",
        effectiveLanguage (some "id"), "--no-prints"] ∧
    (transcribe
      { hasFile := true, inputPath := "tmp/w10", ffmpeg := .ok, ffmpegCreatedWav := false,
        modelExists := true, binExists := true, langParam := some "id",
        whisper := .ok "halo" } []).response
      = Response.ok (jsTrim "halo") (effectiveLanguage (some "id")) := by
  have h := claim10_amended_language_passthrough
    { hasFile := true, inputPath := "tmp/w10", ffmpeg := .ok, ffmpegCreatedWav := false,
      modelExists := true, binExists := true, langParam := some "id",
      whisper := .ok "halo" } [] "halo" rfl rfl rfl rfl rfl
  exact ⟨h.1, h.2.1⟩

end MeNotes
